import Mathlib

/-!
Verification of the Wi-Fi join orchestration and SSID-resolution subsystem of
`nativescript-connectivity-manager-plugin` (file
`src/connectivity-manager-impl.ios.ts`), as a shallow embedding in Lean.

JavaScript strings are modelled as Lean `String`; the JS operations used by the
source (`trim`, `startsWith('"')`, `endsWith('"')`, `substring(1, length - 1)`)
are modelled over the underlying character list (`String.data`) so that all
definitions evaluate by kernel reduction.  JS `null`/`undefined` string values
are modelled as `Option String` with `none`; JS string truthiness (`if (s)`)
is `truthy` below (false exactly on `null`/`undefined`/`""`).

Native collaborators (CaptiveNetwork readout, NEHotspotNetwork fetch,
NEHotspotConfigurationManager apply/remove) are abstracted by an oracle
environment `Env` indexed by a per-instance call counter; a native call either
returns a value or throws synchronously (`NativeOutcome.thrown`).  The event
loop's clock advances at each modelled suspension point.
-/

namespace ConnectivityManager

/-- JS `String.prototype.trim`: drop leading and trailing whitespace. -/
def jsTrim (s : String) : String :=
  ⟨((s.data.dropWhile Char.isWhitespace).reverse.dropWhile Char.isWhitespace).reverse⟩

/-- A raw value handed to `normalizeSsid` (source line 87): either JS
`null`/`undefined` (`noValue`) or a string.  The source additionally
stringifies exotic objects; only the resulting string matters here. -/
inductive RawSsid where
  | noValue
  | str (s : String)
deriving DecidableEq

/-- JS truthiness of a `string | null | undefined` value: false exactly for
`null`, `undefined` and the empty string. -/
def truthy : Option String → Bool
  | none => false
  | some s => s != ""

/-- `normalizeSsid` (source lines 87-106): `null`/`undefined` map to `null`;
the value is stringified and trimmed; the empty string and the literal
sentinel `"<unknown ssid>"` map to `null`; a value of length ≥ 2 wrapped in
double quotes has exactly one leading and one trailing quote stripped
(`substring(1, length - 1)`); otherwise the trimmed value is returned. -/
def normalizeSsid : RawSsid → Option String
  | .noValue => none
  | .str s =>
    let normalized := jsTrim s
    if normalized = "" ∨ normalized = "<unknown ssid>" then none
    else if 2 ≤ normalized.length ∧ normalized.data.head? = some '"' ∧
        normalized.data.getLast? = some '"' then
      some (String.mk ((normalized.data.drop 1).dropLast))
    else some normalized

/-- Lift `normalizeSsid` to a `string | null` argument, as in
`this.normalizeSsid(initialSsidRaw)` where the argument may be `null`. -/
def normVal : Option String → Option String
  | none => normalizeSsid .noValue
  | some s => normalizeSsid (.str s)

/-- `HOTSPOT_ERROR_INTERNAL` (source line 15). -/
def HOTSPOT_ERROR_INTERNAL : Int := 8

/-- `HOTSPOT_ERROR_PENDING` (source line 16). -/
def HOTSPOT_ERROR_PENDING : Int := 9

/-- `HOTSPOT_ERROR_JOIN_ONCE_NOT_SUPPORTED` (source line 17). -/
def HOTSPOT_ERROR_JOIN_ONCE_NOT_SUPPORTED : Int := 12

/-- `HOTSPOT_ERROR_ALREADY_ASSOCIATED` (source line 18). -/
def HOTSPOT_ERROR_ALREADY_ASSOCIATED : Int := 13

/-- `POLL_INTERVAL_MS` (source line 12). -/
def POLL_INTERVAL_MS : Nat := 200

/-- `SSID_FETCH_TIMEOUT_MS` (source line 13). -/
def SSID_FETCH_TIMEOUT_MS : Nat := 1500

/-- `HOTSPOT_RETRY_DELAY_MS` (source line 14). -/
def HOTSPOT_RETRY_DELAY_MS : Nat := 400

/-- `getHotspotErrorCode` (source lines 132-134): an `NSError` is modelled as
`Option Int` (its code); a `null` error yields `-1`. -/
def getHotspotErrorCode : Option Int → Int
  | some code => code
  | none => -1

/-- `isRecoverableHotspotConfigurationError` (source lines 136-143). -/
def isRecoverableHotspotConfigurationError (err : Option Int) : Bool :=
  let code := getHotspotErrorCode err
  code == HOTSPOT_ERROR_ALREADY_ASSOCIATED || code == HOTSPOT_ERROR_PENDING ||
    code == HOTSPOT_ERROR_INTERNAL

/-- `canRetryAfterConfigurationReset` (source lines 145-148). -/
def canRetryAfterConfigurationReset (err : Option Int) : Bool :=
  let code := getHotspotErrorCode err
  code == HOTSPOT_ERROR_INTERNAL

/-- `canRetryWithoutJoinOnce` (source lines 150-155). -/
def canRetryWithoutJoinOnce (err : Option Int) : Bool :=
  let code := getHotspotErrorCode err
  code == HOTSPOT_ERROR_JOIN_ONCE_NOT_SUPPORTED

/-! ## `waitUntil` (source lines 337-393), trace model

One predicate evaluation is summarised by the wall-clock elapsed time
(`Date.now() - startedAt`) at the moment its promise settles, together with
its outcome: fulfilled `true`, fulfilled `false`, or rejected.  The loop of
the source consumes such evaluations in order; the caller-chosen interval
only influences the elapsed times recorded in the trace. -/

/-- Outcome of one evaluation of the `waitUntil` predicate. -/
inductive PredOutcome where
  | ptrue
  | pfalse
  | preject
deriving DecidableEq

/-- `Math.max(0, Number(timeoutMs) || 0)` (source line 343). -/
def safeTimeoutMs (timeoutMs : Int) : Nat := (max 0 timeoutMs).toNat

/-- `Math.max(50, Number(intervalMs) || 200)` (source line 344): a zero (or
NaN) interval falls back to 200, and the result is floored at 50. -/
def safeIntervalMs (intervalMs : Int) : Int :=
  max 50 (if intervalMs = 0 then 200 else intervalMs)

/-- The `loop` of `waitUntil` (source lines 357-389) over an evaluation
trace.  Returns the resolved value (`none` when the trace is exhausted before
the loop settles) and the number of diagnostic log entries emitted for
rejected evaluations; `logged` is the `loopErrorLogged` flag. -/
def waitUntilLoop (timeout : Nat) (logged : Bool) :
    List (Nat × PredOutcome) → Option Bool × Nat
  | [] => (none, 0)
  | (_, .ptrue) :: _ => (some true, 0)
  | (t, .pfalse) :: rest =>
    if timeout ≤ t then (some false, 0) else waitUntilLoop timeout logged rest
  | (t, .preject) :: rest =>
    let emitted := if logged then 0 else 1
    if timeout ≤ t then (some false, emitted)
    else
      let r := waitUntilLoop timeout true rest
      (r.1, emitted + r.2)

/-- `waitUntil` (source lines 337-393): floor the timeout, start with the
rejection-log flag unset, and run the loop on the evaluation trace.  The
interval argument is kept for signature fidelity; evaluation times are
carried by the trace. -/
def waitUntil (timeoutMs intervalMs : Int) (trace : List (Nat × PredOutcome)) :
    Option Bool × Nat :=
  waitUntilLoop (safeTimeoutMs timeoutMs) false trace

lemma waitUntilLoop_logged_true_count (timeout : Nat)
    (trace : List (Nat × PredOutcome)) : (waitUntilLoop timeout true trace).2 = 0 := by
  induction trace with
  | nil => rfl
  | cons e rest ih =>
    obtain ⟨t, o⟩ := e
    cases o <;> simp [waitUntilLoop, ih] <;> split <;> simp [ih]

lemma waitUntilLoop_count_le_one (timeout : Nat)
    (trace : List (Nat × PredOutcome)) : (waitUntilLoop timeout false trace).2 ≤ 1 := by
  induction trace with
  | nil => simp [waitUntilLoop]
  | cons e rest ih =>
    obtain ⟨t, o⟩ := e
    cases o <;> simp [waitUntilLoop]
    · split <;> simp [ih]
    · split <;> simp [waitUntilLoop_logged_true_count]

lemma waitUntilLoop_true_of_prefix (timeout : Nat) (logged : Bool)
    (pre : List (Nat × PredOutcome)) (t : Nat) (rest : List (Nat × PredOutcome))
    (hpre : ∀ e ∈ pre, e.2 ≠ PredOutcome.ptrue ∧ e.1 < timeout) :
    (waitUntilLoop timeout logged (pre ++ (t, PredOutcome.ptrue) :: rest)).1 =
      some true := by
  induction pre generalizing logged with
  | nil => simp [waitUntilLoop]
  | cons e pre ih =>
    obtain ⟨u, o⟩ := e
    have he := hpre (u, o) (by simp)
    have hrest : ∀ e ∈ pre, e.2 ≠ PredOutcome.ptrue ∧ e.1 < timeout := by
      intro e hmem
      exact hpre e (by simp [hmem])
    cases o with
    | ptrue => exact absurd rfl he.1
    | pfalse =>
      have : ¬ timeout ≤ u := by omega
      simp [waitUntilLoop, this, ih logged hrest]
    | preject =>
      have : ¬ timeout ≤ u := by omega
      simp [waitUntilLoop, this, ih true hrest]

lemma waitUntilLoop_false_deadline (timeout : Nat) (logged : Bool)
    (trace : List (Nat × PredOutcome))
    (h : (waitUntilLoop timeout logged trace).1 = some false) :
    ∃ e ∈ trace, timeout ≤ e.1 := by
  induction trace generalizing logged with
  | nil => simp [waitUntilLoop] at h
  | cons e rest ih =>
    obtain ⟨t, o⟩ := e
    cases o with
    | ptrue => simp [waitUntilLoop] at h
    | pfalse =>
      by_cases hle : timeout ≤ t
      · exact ⟨(t, .pfalse), by simp, hle⟩
      · simp [waitUntilLoop, hle] at h
        obtain ⟨e, hmem, he⟩ := ih logged h
        exact ⟨e, by simp [hmem], he⟩
    | preject =>
      by_cases hle : timeout ≤ t
      · exact ⟨(t, .preject), by simp, hle⟩
      · simp [waitUntilLoop, hle] at h
        obtain ⟨e, hmem, he⟩ := ih true h
        exact ⟨e, by simp [hmem], he⟩

/-- An already-canonical, non-quoted string: trimming is the identity, it is
non-empty, it is not the sentinel, and it is not wrapped in double quotes. -/
def isCanonicalNonQuoted (s : String) : Bool :=
  jsTrim s == s && s != "" && s != "<unknown ssid>" &&
    !(decide (2 ≤ s.length) && s.data.head? == some '"' && s.data.getLast? == some '"')

/-! ## The native environment and the manager's world

The manager instance state (`previousSsid`, `cachedSsid`, source lines 22-23)
is carried in a `World` together with the event-loop clock, the native-call
counter, and an instrumentation log of the native configuration calls issued
and the polling stages started.  The native side is an oracle `Env`: the k-th
native call of a run reads the oracle at index k. -/

/-- Outcome of a synchronous native call: a value, or a synchronous throw. -/
inductive NativeOutcome (α : Type) where
  | ok (a : α)
  | thrown
deriving DecidableEq

/-- Behaviour of one `NEHotspotNetwork.fetchCurrentWithCompletionHandler`
call (source lines 310-327): the modern API may be absent
(feature-detection fails), the call may throw synchronously (caught at
source line 328), the completion may never fire (the 1500 ms fetch timeout
then resolves with the legacy fallback), or the completion fires with either
no network or a network whose SSID property access returns a raw value or
throws (an uncaught throw inside the asynchronous completion leaves the
promise pending until the fetch timeout fires). -/
inductive HotspotBehavior where
  | unavailable
  | throwsOnCall
  | silent
  | completes (network : Option (NativeOutcome (Option String)))
deriving DecidableEq

/-- Oracle for the native collaborators, indexed by the call counter.
`captive` describes one CaptiveNetwork readout
(`getNetworkInfo` + `valueForKey`, source lines 58-112): `none` means
`getNetworkInfo` returned `null`; `some o` means an info dictionary was
found and the subsequent `valueForKey` call had outcome `o` (a raw SSID
value, possibly `null`, or a synchronous throw).  `applyResult k` is the
error delivered to the k-th configuration-apply completion handler (`none` =
success); `applyThrows k` makes that apply call throw synchronously instead;
`removeThrows k` makes the k-th `removeConfigurationForSSID` call throw.
`dur k` is the wall-clock time consumed by the k-th native call. -/
structure Env where
  captive : Nat → Option (NativeOutcome (Option String))
  hotspot : Nat → HotspotBehavior
  applyResult : Nat → Option Int
  applyThrows : Nat → Bool
  removeThrows : Nat → Bool
  dur : Nat → Nat

/-- Instrumentation record of the externally visible actions of a run. -/
inductive Event where
  | applyCall (joinOnce : Bool) (ssid : String)
  | removeCall (ssid : String)
  | pollStart (preferred : Option Nat) (remaining slice : Nat)
  | stageStart (stage : Nat) (remaining : Nat)
deriving DecidableEq

/-- The manager instance state plus the event-loop clock, the native-call
counter and the instrumentation log.  `previousSsid = none` models the
`undefined` initial value (source line 22); `cachedSsid = none` models
`null` (source line 23). -/
structure World where
  previousSsid : Option String
  cachedSsid : Option String
  now : Nat
  tick : Nat
  log : List Event
deriving DecidableEq

/-- Advance the event-loop clock by `d` milliseconds (timer firing). -/
def advance (d : Nat) (w : World) : World :=
  { w with now := w.now + d }

/-- Consume one native-call slot: returns its oracle index and advances the
clock by the call's duration. -/
def useTick (env : Env) (w : World) : Nat × World :=
  (w.tick, { w with tick := w.tick + 1, now := w.now + env.dur w.tick })

/-- Append one instrumentation event. -/
def logEvent (e : Event) (w : World) : World :=
  { w with log := w.log ++ [e] }

/-- `getSsidFromCaptiveNetwork` (source lines 108-112, with `getNetworkInfo`,
source lines 58-85): `getNetworkInfo` catches its own failures and yields an
info dictionary or `null`; the subsequent `info.valueForKey` call (source
line 110) is not guarded, so its synchronous throw propagates. -/
def getSsidFromCaptiveNetwork (env : Env) (w : World) :
    NativeOutcome (Option String) × World :=
  let (k, w) := useTick env w
  match env.captive k with
  | none => (.ok none, w)
  | some .thrown => (.thrown, w)
  | some (.ok raw) => (.ok (normVal raw), w)

/-- `getSsidFromCaptiveNetworkSafe` (source lines 114-121): same readout with
the throw caught, logged and degraded to `null`. -/
def getSsidFromCaptiveNetworkSafe (env : Env) (w : World) :
    Option String × World :=
  match getSsidFromCaptiveNetwork env w with
  | (.thrown, w) => (none, w)
  | (.ok v, w) => (v, w)

/-- `fetchCurrentSsid` (source lines 288-335).  The modern hotspot readout is
feature-detected and guarded; a truthy normalized hotspot SSID resolves the
promise, anything else falls back to the legacy safe readout.  When the
completion never fires, or throws after being invoked asynchronously, the
1500 ms fetch timeout resolves with the legacy safe readout. -/
def fetchCurrentSsid (env : Env) (w : World) : Option String × World :=
  let (k, w) := useTick env w
  match env.hotspot k with
  | .unavailable => getSsidFromCaptiveNetworkSafe env w
  | .throwsOnCall => getSsidFromCaptiveNetworkSafe env w
  | .silent => getSsidFromCaptiveNetworkSafe env (advance SSID_FETCH_TIMEOUT_MS w)
  | .completes network =>
    match network with
    | none => getSsidFromCaptiveNetworkSafe env w
    | some .thrown => getSsidFromCaptiveNetworkSafe env (advance SSID_FETCH_TIMEOUT_MS w)
    | some (.ok raw) =>
      let ssid := normVal raw
      if truthy ssid then (ssid, w)
      else getSsidFromCaptiveNetworkSafe env w

/-- `getSSIDAsync` (source lines 425-436): a truthy fast-path legacy readout
is cached and returned immediately; otherwise the result of
`fetchCurrentSsid` is cached and returned. -/
def getSSIDAsync (env : Env) (w : World) : Option String × World :=
  let (fastPathSsid, w) := getSsidFromCaptiveNetworkSafe env w
  if truthy fastPathSsid then (fastPathSsid, { w with cachedSsid := fastPathSsid })
  else
    let (ssid, w) := fetchCurrentSsid env w
    (ssid, { w with cachedSsid := ssid })

lemma getSsidFromCaptiveNetworkSafe_frame (env : Env) (w : World) :
    ((getSsidFromCaptiveNetworkSafe env w).2.previousSsid = w.previousSsid ∧
      (getSsidFromCaptiveNetworkSafe env w).2.cachedSsid = w.cachedSsid) ∧
    (getSsidFromCaptiveNetworkSafe env w).2.log = w.log ∧
    w.now ≤ (getSsidFromCaptiveNetworkSafe env w).2.now := by
  simp only [getSsidFromCaptiveNetworkSafe, getSsidFromCaptiveNetwork, useTick]
  rcases env.captive w.tick with _ | o
  · simp
  · rcases o with raw | _ <;> simp

lemma fetchCurrentSsid_frame (env : Env) (w : World) :
    ((fetchCurrentSsid env w).2.previousSsid = w.previousSsid ∧
      (fetchCurrentSsid env w).2.cachedSsid = w.cachedSsid) ∧
    (fetchCurrentSsid env w).2.log = w.log ∧
    w.now ≤ (fetchCurrentSsid env w).2.now := by
  have key : ∀ w' : World, w'.previousSsid = w.previousSsid →
      w'.cachedSsid = w.cachedSsid → w'.log = w.log → w.now ≤ w'.now →
      ((getSsidFromCaptiveNetworkSafe env w').2.previousSsid = w.previousSsid ∧
        (getSsidFromCaptiveNetworkSafe env w').2.cachedSsid = w.cachedSsid) ∧
      (getSsidFromCaptiveNetworkSafe env w').2.log = w.log ∧
      w.now ≤ (getSsidFromCaptiveNetworkSafe env w').2.now := by
    intro w' h1 h2 h3 h4
    have h := getSsidFromCaptiveNetworkSafe_frame env w'
    exact ⟨⟨h.1.1.trans h1, h.1.2.trans h2⟩, h.2.1.trans h3, le_trans h4 h.2.2⟩
  simp only [fetchCurrentSsid, useTick]
  rcases env.hotspot w.tick with _ | _ | _ | network
  · exact key _ rfl rfl rfl (by simp)
  · exact key _ rfl rfl rfl (by simp)
  · exact key _ rfl rfl rfl (by simp only [advance]; omega)
  · rcases network with _ | o
    · exact key _ rfl rfl rfl (by simp)
    · rcases o with raw | _
      · by_cases ht : truthy (normVal raw) = true
        · simp [ht]
        · simp only [Bool.not_eq_true] at ht
          simp only [ht, Bool.false_eq_true, if_false]
          exact key _ rfl rfl rfl (by simp)
      · exact key _ rfl rfl rfl (by simp only [advance]; omega)

lemma getSSIDAsync_frame (env : Env) (w : World) :
    (getSSIDAsync env w).2.previousSsid = w.previousSsid ∧
    (getSSIDAsync env w).2.log = w.log ∧
    w.now ≤ (getSSIDAsync env w).2.now := by
  simp only [getSSIDAsync]
  have hsafe := getSsidFromCaptiveNetworkSafe_frame env w
  by_cases ht : truthy (getSsidFromCaptiveNetworkSafe env w).1 = true
  · simp [ht]
    exact ⟨hsafe.1.1, hsafe.2.1, hsafe.2.2⟩
  · have hfetch := fetchCurrentSsid_frame env (getSsidFromCaptiveNetworkSafe env w).2
    simp only [Bool.not_eq_true] at ht
    simp [ht]
    refine ⟨?_, ?_, ?_⟩
    · rw [hfetch.1.1, hsafe.1.1]
    · rw [hfetch.2.1, hsafe.2.1]
    · exact le_trans hsafe.2.2 hfetch.2.2

/-- The cache written by `getSSIDAsync` is exactly its returned value
(source lines 428 and 433). -/
lemma getSSIDAsync_cached (env : Env) (w : World) :
    (getSSIDAsync env w).2.cachedSsid = (getSSIDAsync env w).1 := by
  simp only [getSSIDAsync]
  by_cases ht : truthy (getSsidFromCaptiveNetworkSafe env w).1 = true
  · simp [ht]
  · simp only [Bool.not_eq_true] at ht
    simp [ht]

/-! ## The configuration applier (source lines 172-286) -/

/-- `NEHotspotConfigurationManager.sharedManager.removeConfigurationForSSID`:
one native call that may throw synchronously. -/
def removeConfigurationForSSID (env : Env) (ssid : String) (w : World) :
    NativeOutcome Unit × World :=
  let (k, w) := useTick env w
  let w := logEvent (.removeCall ssid) w
  if env.removeThrows k then (.thrown, w) else (.ok (), w)

/-- `applyHotspotConfiguration` (source lines 185-196) applied to the
configuration built by `createHotspotConfiguration` (source lines 172-183).
The configuration's contents (SSID, password, join-once flag) do not affect
the model's control flow beyond the oracle's answer; the join-once flag and
SSID are recorded in the log.  If the native submission call itself throws
synchronously, the promise executor throws and the returned promise rejects
(`Except.error`); otherwise the completion handler fires with the native
error (`none` = success). -/
def applyHotspotConfiguration (env : Env) (joinOnce : Bool) (ssid : String)
    (w : World) : Except World (Option Int × World) :=
  let (k, w) := useTick env w
  let w := logEvent (.applyCall joinOnce ssid) w
  if env.applyThrows k then .error w
  else .ok (env.applyResult k, w)

/-- `applyPersistentHotspotConfiguration` (source lines 254-264): a plain
apply with the join-once flag cleared. -/
def applyPersistentHotspotConfiguration (env : Env) (ssid password : String)
    (w : World) : Except World (Option Int × World) :=
  applyHotspotConfiguration env false ssid w

/-- `applyHotspotConfigurationAfterReset` (source lines 270-286): best-effort
removal (its throw is caught, source line 276), the 400 ms settle delay, then
a persistent apply. -/
def applyHotspotConfigurationAfterReset (env : Env) (ssid password : String)
    (w : World) : Except World (Option Int × World) :=
  let (_, w) := removeConfigurationForSSID env ssid w
  let w := advance HOTSPOT_RETRY_DELAY_MS w
  applyPersistentHotspotConfiguration env ssid password w

/-- `applyHotspotConfigurationWithFallback` (source lines 198-252):
best-effort removal (throw caught, source line 204), settle delay, join-once
apply; a null or recoverable error is returned; the join-once-unsupported
code triggers a persistent retry, whose own internal-error code cascades into
a reset retry; an internal-error code on the initial apply triggers a reset
retry; any other error is returned to the caller. -/
def applyHotspotConfigurationWithFallback (env : Env) (ssid password : String)
    (w : World) : Except World (Option Int × World) :=
  let (_, w) := removeConfigurationForSSID env ssid w
  let w := advance HOTSPOT_RETRY_DELAY_MS w
  match applyHotspotConfiguration env true ssid w with
  | .error w => .error w
  | .ok (initialError, w) =>
    if initialError = none ∨ isRecoverableHotspotConfigurationError initialError then
      .ok (initialError, w)
    else if canRetryWithoutJoinOnce initialError then
      match applyHotspotConfiguration env false ssid w with
      | .error w => .error w
      | .ok (fallbackError, w) =>
        if fallbackError ≠ none ∧ canRetryAfterConfigurationReset fallbackError then
          applyHotspotConfigurationAfterReset env ssid password w
        else .ok (fallbackError, w)
    else if canRetryAfterConfigurationReset initialError then
      applyHotspotConfigurationAfterReset env ssid password w
    else .ok (initialError, w)

/-- World reached by an apply-chain step, whether it resolved or rejected. -/
def exWorld : Except World (Option Int × World) → World
  | .error w => w
  | .ok (_, w) => w

/-- An event recording a native configuration call (as opposed to polling
instrumentation). -/
def nativeCallEvent (e : Event) : Prop :=
  (∃ b s, e = Event.applyCall b s) ∨ (∃ s, e = Event.removeCall s)

/-! ## The polling loops

`connectToWifiNetwork` and `disconnectWifiNetwork` call `waitUntil` with
concrete asynchronous predicates that read `getSSIDAsync` and hence mutate
the cached SSID; these two instantiations are embedded directly (the trace
model `waitUntilLoop` above is the same loop with the predicate left
abstract).  Both use the fixed 200 ms poll interval, so the effective
interval `max(50, 200)` is 200; the timeout argument is a natural number,
already floored at 0 by the callers.  `startedAt` is the `Date.now()` read
at loop entry; each predicate evaluation is followed by the deadline check
`Date.now() - startedAt >= safeTimeoutMs` (source line 370). -/

/-- `waitUntil` instantiated with the connect predicate (source lines
543-549): normalize the SSID read and compare with the target. -/
def waitUntilSsidEquals (env : Env) (expected : String) (timeout startedAt : Nat)
    (w : World) : Bool × World :=
  if normVal (getSSIDAsync env w).1 = some expected then (true, (getSSIDAsync env w).2)
  else if timeout ≤ (getSSIDAsync env w).2.now - startedAt then (false, (getSSIDAsync env w).2)
  else waitUntilSsidEquals env expected timeout startedAt
    (advance POLL_INTERVAL_MS (getSSIDAsync env w).2)
termination_by (startedAt + timeout + POLL_INTERVAL_MS) - w.now
decreasing_by
  have hm := (getSSIDAsync_frame env w).2.2
  simp only [advance, POLL_INTERVAL_MS] at *
  omega

/-- `waitUntil` instantiated with the disconnect predicate (source lines
658-661): the raw SSID read differs from the target. -/
def waitUntilSsidDiffers (env : Env) (target : String) (timeout startedAt : Nat)
    (w : World) : Bool × World :=
  if (getSSIDAsync env w).1 ≠ some target then (true, (getSSIDAsync env w).2)
  else if timeout ≤ (getSSIDAsync env w).2.now - startedAt then (false, (getSSIDAsync env w).2)
  else waitUntilSsidDiffers env target timeout startedAt
    (advance POLL_INTERVAL_MS (getSSIDAsync env w).2)
termination_by (startedAt + timeout + POLL_INTERVAL_MS) - w.now
decreasing_by
  have hm := (getSSIDAsync_frame env w).2.2
  simp only [advance, POLL_INTERVAL_MS] at *
  omega

/-! ## The join orchestrator (source lines 483-644)

`connectToWifiNetwork` is factored into the successive phases of the source
promise chain; each early `resolve(false)` is a direct `(false, w)` result.
The observed-SSID set (source lines 504, 510, 545-547, 582-584, 608-611,
620-629) feeds only the diagnostic log text and is not modelled. -/

/-- `getRemainingTimeout` (source lines 497-498).  Natural subtraction
models `Math.max(0, ...)`. -/
def getRemainingTimeout (safeTimeout startedAt now : Nat) : Nat :=
  safeTimeout - (now - startedAt)

/-- `getTimeoutSlice` (source lines 499-503):
`Math.max(0, Math.min(Math.max(0, Number(preferredMs) || 0), remaining))`. -/
def getTimeoutSlice (preferredMs : Int) (remaining : Nat) : Nat :=
  max 0 (min (max 0 preferredMs).toNat remaining)

/-- Source lines 616-632: on a confirmed join record the target as
`previousSsid` and `cachedSsid` and resolve `true`; otherwise resolve
`false` (after logging the observed SSIDs). -/
def connectFinish (expected : String) (connected : Bool) (w : World) :
    Bool × World :=
  if connected then
    (true, { w with previousSsid := some expected, cachedSsid := some expected })
  else (false, w)

/-- Source lines 589-614: the reset-retry remediation stage, entered only
while unconnected with remaining budget; a non-recoverable error resolves
`false`; the final poll runs on the full remaining budget (uncapped). -/
def connectStage3 (env : Env) (expected password : String)
    (safeTimeout startedAt : Nat) (connected : Bool) (w : World) : Bool × World :=
  if ¬connected ∧ 0 < getRemainingTimeout safeTimeout startedAt w.now then
    let w := logEvent (.stageStart 3 (getRemainingTimeout safeTimeout startedAt w.now)) w
    match applyHotspotConfigurationAfterReset env expected password w with
    | .error w => (false, w)
    | .ok (resetRetryError, w) =>
      if resetRetryError ≠ none ∧
          ¬ isRecoverableHotspotConfigurationError resetRetryError then
        (false, w)
      else
        let rem := getRemainingTimeout safeTimeout startedAt w.now
        let w := logEvent (.pollStart none rem rem) w
        let r := waitUntilSsidEquals env expected rem w.now w
        connectFinish expected r.1 r.2
  else connectFinish expected connected w

/-- Source lines 551-587: the persistent re-apply remediation stage, entered
only while unconnected with remaining budget; its internal-error code
cascades into a reset retry; a non-recoverable error resolves `false`; then
a poll with slice `getTimeoutSlice(15000)`. -/
def connectStage2 (env : Env) (expected password : String)
    (safeTimeout startedAt : Nat) (connected : Bool) (w : World) : Bool × World :=
  if ¬connected ∧ 0 < getRemainingTimeout safeTimeout startedAt w.now then
    let w := logEvent (.stageStart 2 (getRemainingTimeout safeTimeout startedAt w.now)) w
    match applyPersistentHotspotConfiguration env expected password w with
    | .error w => (false, w)
    | .ok (pErr, w) =>
      match (if pErr ≠ none ∧ canRetryAfterConfigurationReset pErr then
          applyHotspotConfigurationAfterReset env expected password w
        else .ok (pErr, w)) with
      | .error w => (false, w)
      | .ok (persistentError, w) =>
        if persistentError ≠ none ∧
            ¬ isRecoverableHotspotConfigurationError persistentError then
          (false, w)
        else
          let rem := getRemainingTimeout safeTimeout startedAt w.now
          let slice := getTimeoutSlice 15000 rem
          let w := logEvent (.pollStart (some 15000) rem slice) w
          let r := waitUntilSsidEquals env expected slice w.now w
          connectStage3 env expected password safeTimeout startedAt r.1 r.2
  else connectStage3 env expected password safeTimeout startedAt connected w

/-- Source lines 520-549: the initial apply-with-fallback (its result run
through one more reset retry on the internal-error code, source lines
522-528), failing fast on a non-recoverable error, then the first poll with
slice `getTimeoutSlice(15000)`, followed by the two remediation stages. -/
def connectApplyPhase (env : Env) (expected password : String)
    (safeTimeout startedAt : Nat) (w : World) : Bool × World :=
  match applyHotspotConfigurationWithFallback env expected password w with
  | .error w => (false, w)
  | .ok (err, w) =>
    match (if err ≠ none ∧ canRetryAfterConfigurationReset err then
        applyHotspotConfigurationAfterReset env expected password w
      else .ok (err, w)) with
    | .error w => (false, w)
    | .ok (initialError, w) =>
      if initialError ≠ none ∧
          ¬ isRecoverableHotspotConfigurationError initialError then
        (false, w)
      else
        let rem := getRemainingTimeout safeTimeout startedAt w.now
        let slice := getTimeoutSlice 15000 rem
        let w := logEvent (.pollStart (some 15000) rem slice) w
        let r := waitUntilSsidEquals env expected slice w.now w
        connectStage2 env expected password safeTimeout startedAt r.1 r.2

/-- `connectToWifiNetwork` (source lines 483-644): reject an unnormalizable
(or empty-normalizing) target immediately; fix the time budget; resolve the
initial SSID; take the idempotent shortcut when it already equals the
target; otherwise run the apply phase and the remediation stages.  All
rejections of inner native promises are caught by the `.catch` handlers
(source lines 634-642) and resolve `false`, so the result is a plain
`Bool`. -/
def connectToWifiNetwork (env : Env) (ssid password : String)
    (milliseconds : Int) (w : World) : Bool × World :=
  match normalizeSsid (.str ssid) with
  | none => (false, w)
  | some expected =>
    if expected = "" then (false, w)
    else
      let safeTimeout := safeTimeoutMs milliseconds
      let startedAt := w.now
      let r0 := getSSIDAsync env w
      let initialSsid := normVal r0.1
      if initialSsid = some expected then
        (true, { r0.2 with previousSsid := some expected, cachedSsid := some expected })
      else connectApplyPhase env expected password safeTimeout startedAt r0.2

/-! ## Disconnect (source lines 646-676) -/

/-- The completion continuation of `disconnectWifiNetwork` (source lines
661-673), applied to the instance state as it stands when the polling
promise settles: the stored state is cleared only when `previousSsid` still
equals the SSID whose removal was requested; the resolved value is the
polling outcome either way. -/
def disconnectFinish (ssidToDisconnect : String) (disconnected : Bool)
    (w : World) : Bool × World :=
  if disconnected ∧ w.previousSsid = some ssidToDisconnect then
    (true, { w with previousSsid := none, cachedSsid := none })
  else (disconnected, w)

/-- `disconnectWifiNetwork` (source lines 646-676): a falsy normalized
`previousSsid` resolves `true` with no native call; otherwise the native
configuration for the normalized `previousSsid` is removed — this call is
not wrapped in `try`/`catch` (source line 654), so a synchronous throw
escapes the promise executor and rejects the returned promise
(`Except.error`) — then the loop polls until the read SSID differs from it
within the caller's timeout, and the completion continuation runs. -/
def disconnectWifiNetwork (env : Env) (timeoutMs : Int) (w : World) :
    Except World (Bool × World) :=
  match normVal w.previousSsid with
  | none => .ok (true, w)
  | some target =>
    if target = "" then .ok (true, w)
    else
      match removeConfigurationForSSID env target w with
      | (.thrown, w) => .error w
      | (.ok _, w) =>
        let r := waitUntilSsidDiffers env target (safeTimeoutMs timeoutMs) w.now w
        .ok (disconnectFinish target r.1 r.2)

/-! ## Frame lemmas -/

/-- Relation between the world before and after an apply-chain step: the
instance state is untouched, the clock is monotone, the log is extended,
and every new event records a native configuration call. -/
def chainFrame (w w' : World) : Prop :=
  w'.previousSsid = w.previousSsid ∧ w'.cachedSsid = w.cachedSsid ∧
    w.now ≤ w'.now ∧ (∀ e ∈ w'.log, e ∈ w.log ∨ nativeCallEvent e) ∧
    (∀ e ∈ w.log, e ∈ w'.log)

lemma chainFrame_rfl (w : World) : chainFrame w w :=
  ⟨rfl, rfl, le_refl _, fun e he => Or.inl he, fun _ he => he⟩

lemma chainFrame_trans {w1 w2 w3 : World} (h12 : chainFrame w1 w2)
    (h23 : chainFrame w2 w3) : chainFrame w1 w3 := by
  refine ⟨h23.1.trans h12.1, h23.2.1.trans h12.2.1, le_trans h12.2.2.1 h23.2.2.1,
    ?_, ?_⟩
  · intro e he
    rcases h23.2.2.2.1 e he with h | h
    · exact h12.2.2.2.1 e h
    · exact Or.inr h
  · intro e he
    exact h23.2.2.2.2 e (h12.2.2.2.2 e he)

lemma removeConfigurationForSSID_chainFrame (env : Env) (ssid : String)
    (w : World) : chainFrame w (removeConfigurationForSSID env ssid w).2 ∧
      Event.removeCall ssid ∈ (removeConfigurationForSSID env ssid w).2.log := by
  simp only [removeConfigurationForSSID, useTick, logEvent]
  constructor
  · split <;>
      exact ⟨rfl, rfl, by simp, fun e he => by
          rcases List.mem_append.1 he with h | h
          · exact Or.inl h
          · simp at h
            exact Or.inr (Or.inr ⟨ssid, h⟩),
        fun e he => List.mem_append.2 (Or.inl he)⟩
  · split <;> simp

lemma applyHotspotConfiguration_chainFrame (env : Env) (joinOnce : Bool)
    (ssid : String) (w : World) :
    chainFrame w (exWorld (applyHotspotConfiguration env joinOnce ssid w)) := by
  simp only [applyHotspotConfiguration, useTick, logEvent]
  split <;>
    exact ⟨rfl, rfl, by simp [exWorld], fun e he => by
        simp only [exWorld] at he
        rcases List.mem_append.1 he with h | h
        · exact Or.inl h
        · simp at h
          exact Or.inr (Or.inl ⟨joinOnce, ssid, h⟩),
      fun e he => List.mem_append.2 (Or.inl he)⟩

lemma applyHotspotConfigurationAfterReset_chainFrame (env : Env)
    (ssid password : String) (w : World) :
    chainFrame w (exWorld (applyHotspotConfigurationAfterReset env ssid password w)) := by
  simp only [applyHotspotConfigurationAfterReset, applyPersistentHotspotConfiguration]
  have h1 := (removeConfigurationForSSID_chainFrame env ssid w).1
  have h2 : chainFrame (removeConfigurationForSSID env ssid w).2
      (advance HOTSPOT_RETRY_DELAY_MS (removeConfigurationForSSID env ssid w).2) :=
    ⟨rfl, rfl, by simp [advance], fun e he => Or.inl he, fun _ he => he⟩
  have h3 := applyHotspotConfiguration_chainFrame env false ssid
    (advance HOTSPOT_RETRY_DELAY_MS (removeConfigurationForSSID env ssid w).2)
  exact chainFrame_trans (chainFrame_trans h1 h2) h3

lemma applyHotspotConfigurationWithFallback_chainFrame (env : Env)
    (ssid password : String) (w : World) :
    chainFrame w (exWorld (applyHotspotConfigurationWithFallback env ssid password w)) := by
  simp only [applyHotspotConfigurationWithFallback]
  have h1 := (removeConfigurationForSSID_chainFrame env ssid w).1
  have h2 : chainFrame (removeConfigurationForSSID env ssid w).2
      (advance HOTSPOT_RETRY_DELAY_MS (removeConfigurationForSSID env ssid w).2) :=
    ⟨rfl, rfl, by simp [advance], fun e he => Or.inl he, fun _ he => he⟩
  have hbase := chainFrame_trans h1 h2
  set w1 := advance HOTSPOT_RETRY_DELAY_MS (removeConfigurationForSSID env ssid w).2 with hw1
  split
  · rename_i w2 heq
    have h3 := applyHotspotConfiguration_chainFrame env true ssid w1
    rw [heq] at h3
    exact chainFrame_trans hbase h3
  · rename_i initialError w2 heq
    have h3 := applyHotspotConfiguration_chainFrame env true ssid w1
    rw [heq] at h3
    simp only [exWorld] at h3
    have hto2 := chainFrame_trans hbase h3
    split
    · simp only [exWorld]
      exact hto2
    · split
      · split
        · rename_i w3 hfb
          have h4 := applyHotspotConfiguration_chainFrame env false ssid w2
          rw [hfb] at h4
          exact chainFrame_trans hto2 h4
        · rename_i fallbackError w3 hfb
          have h4 := applyHotspotConfiguration_chainFrame env false ssid w2
          rw [hfb] at h4
          simp only [exWorld] at h4
          have hto3 := chainFrame_trans hto2 h4
          split
          · exact chainFrame_trans hto3
              (applyHotspotConfigurationAfterReset_chainFrame env ssid password w3)
          · simp only [exWorld]
            exact hto3
      · split
        · exact chainFrame_trans hto2
            (applyHotspotConfigurationAfterReset_chainFrame env ssid password w2)
        · simp only [exWorld]
          exact hto2

lemma waitUntilSsidEquals_frame (env : Env) (expected : String)
    (timeout startedAt : Nat) (w : World) :
    (waitUntilSsidEquals env expected timeout startedAt w).2.previousSsid =
        w.previousSsid ∧
      (waitUntilSsidEquals env expected timeout startedAt w).2.log = w.log ∧
      w.now ≤ (waitUntilSsidEquals env expected timeout startedAt w).2.now := by
  induction w using waitUntilSsidEquals.induct env expected timeout startedAt with
  | case1 w h =>
    rw [waitUntilSsidEquals]
    simp only [h, if_true]
    have := getSSIDAsync_frame env w
    exact ⟨this.1, this.2.1, this.2.2⟩
  | case2 w h1 h2 =>
    rw [waitUntilSsidEquals]
    simp only [h1, if_false, h2, if_true]
    have := getSSIDAsync_frame env w
    exact ⟨this.1, this.2.1, this.2.2⟩
  | case3 w h1 h2 ih =>
    rw [waitUntilSsidEquals]
    simp only [h1, if_false, h2]
    have hg := getSSIDAsync_frame env w
    refine ⟨?_, ?_, ?_⟩
    · rw [ih.1]
      simp only [advance]
      exact hg.1
    · rw [ih.2.1]
      simp only [advance]
      exact hg.2.1
    · refine le_trans hg.2.2 (le_trans ?_ ih.2.2)
      simp only [advance]
      omega

lemma waitUntilSsidDiffers_frame (env : Env) (target : String)
    (timeout startedAt : Nat) (w : World) :
    (waitUntilSsidDiffers env target timeout startedAt w).2.previousSsid =
        w.previousSsid ∧
      (waitUntilSsidDiffers env target timeout startedAt w).2.log = w.log ∧
      w.now ≤ (waitUntilSsidDiffers env target timeout startedAt w).2.now := by
  induction w using waitUntilSsidDiffers.induct env target timeout startedAt with
  | case1 w h =>
    rw [waitUntilSsidDiffers, if_pos h]
    have := getSSIDAsync_frame env w
    exact ⟨this.1, this.2.1, this.2.2⟩
  | case2 w h1 h2 =>
    rw [waitUntilSsidDiffers, if_neg h1, if_pos h2]
    have := getSSIDAsync_frame env w
    exact ⟨this.1, this.2.1, this.2.2⟩
  | case3 w h1 h2 ih =>
    rw [waitUntilSsidDiffers, if_neg h1, if_neg h2]
    have hg := getSSIDAsync_frame env w
    refine ⟨?_, ?_, ?_⟩
    · rw [ih.1]
      simp only [advance]
      exact hg.1
    · rw [ih.2.1]
      simp only [advance]
      exact hg.2.1
    · refine le_trans hg.2.2 (le_trans ?_ ih.2.2)
      simp only [advance]
      omega

/-- The per-event time-budget discipline: a polling stage's slice is
`min(preferredSliceMs, remainingMs)` of the budget at its start (the final,
uncapped stage records no preferred slice, so its slice is the full
remainder), and a remediation stage is started only with positive remaining
budget.  Native configuration-call events carry no budget obligation. -/
def eventOK : Event → Prop
  | .pollStart preferred remaining slice => slice = min (preferred.getD remaining) remaining
  | .stageStart _ remaining => 0 < remaining
  | _ => True

/-- Every event of `final` is either inherited from `base` or satisfies the
time-budget discipline. -/
def logOK (base final : List Event) : Prop := ∀ e ∈ final, e ∈ base ∨ eventOK e

lemma logOK_rfl (base : List Event) : logOK base base := fun _ he => Or.inl he

lemma logOK_trans {a b c : List Event} (hab : logOK a b) (hbc : logOK b c) :
    logOK a c := by
  intro e he
  rcases hbc e he with h | h
  · exact hab e h
  · exact Or.inr h

lemma logOK_of_chainFrame {w w' : World} (h : chainFrame w w') :
    logOK w.log w'.log := by
  intro e he
  rcases h.2.2.2.1 e he with hmem | hnative
  · exact Or.inl hmem
  · rcases hnative with ⟨b, s, rfl⟩ | ⟨s, rfl⟩ <;> exact Or.inr trivial

lemma logOK_logEvent {e : Event} (w : World) (he : eventOK e) :
    logOK w.log (logEvent e w).log := by
  intro x hx
  simp only [logEvent] at hx
  rcases List.mem_append.1 hx with h | h
  · exact Or.inl h
  · simp at h
    subst h
    exact Or.inr he

lemma logOK_of_eq {w : World} {l : List Event} (h : l = w.log) :
    logOK w.log l := h ▸ logOK_rfl w.log

lemma getTimeoutSlice_eq_min (remaining : Nat) :
    getTimeoutSlice 15000 remaining = min 15000 remaining := by
  simp [getTimeoutSlice]

lemma connectFinish_false_world (expected : String) (connected : Bool)
    (w : World) (h : (connectFinish expected connected w).1 = false) :
    (connectFinish expected connected w).2 = w ∧ connected = false := by
  cases connected <;> simp [connectFinish] at h ⊢

lemma connectFinish_log (expected : String) (connected : Bool) (w : World) :
    (connectFinish expected connected w).2.log = w.log := by
  cases connected <;> simp [connectFinish]

lemma connectStage3_logOK (env : Env) (expected password : String)
    (safeTimeout startedAt : Nat) (connected : Bool) (w : World) :
    logOK w.log (connectStage3 env expected password safeTimeout startedAt
      connected w).2.log := by
  simp only [connectStage3]
  split
  · rename_i hgate
    set w1 := logEvent (.stageStart 3 (getRemainingTimeout safeTimeout startedAt w.now)) w
      with hw1
    have hlog1 : logOK w.log w1.log := logOK_logEvent w hgate.2
    split
    · rename_i w2 heq
      have h := applyHotspotConfigurationAfterReset_chainFrame env expected password w1
      rw [heq] at h
      exact logOK_trans hlog1 (logOK_of_chainFrame h)
    · rename_i resetRetryError w2 heq
      have h := applyHotspotConfigurationAfterReset_chainFrame env expected password w1
      rw [heq] at h
      simp only [exWorld] at h
      have hlog2 : logOK w.log w2.log := logOK_trans hlog1 (logOK_of_chainFrame h)
      split
      · exact hlog2
      · set rem := getRemainingTimeout safeTimeout startedAt w2.now with hrem
        set w3 := logEvent (.pollStart none rem rem) w2 with hw3
        have hlog3 : logOK w.log w3.log :=
          logOK_trans hlog2 (logOK_logEvent w2 (by simp [eventOK]))
        have hpoll := (waitUntilSsidEquals_frame env expected rem w3.now w3).2.1
        rw [connectFinish_log]
        exact logOK_trans hlog3 (logOK_of_eq hpoll)
  · rw [connectFinish_log]
    exact logOK_rfl w.log

lemma connectStage2_logOK (env : Env) (expected password : String)
    (safeTimeout startedAt : Nat) (connected : Bool) (w : World) :
    logOK w.log (connectStage2 env expected password safeTimeout startedAt
      connected w).2.log := by
  simp only [connectStage2]
  split
  · rename_i hgate
    set w1 := logEvent (.stageStart 2 (getRemainingTimeout safeTimeout startedAt w.now)) w
      with hw1
    have hlog1 : logOK w.log w1.log := logOK_logEvent w hgate.2
    split
    · rename_i w2 heq
      have h := applyHotspotConfiguration_chainFrame env false expected w1
      rw [show applyPersistentHotspotConfiguration env expected password w1 =
        applyHotspotConfiguration env false expected w1 from rfl] at heq
      rw [heq] at h
      exact logOK_trans hlog1 (logOK_of_chainFrame h)
    · rename_i pErr w2 heq
      have h := applyHotspotConfiguration_chainFrame env false expected w1
      rw [show applyPersistentHotspotConfiguration env expected password w1 =
        applyHotspotConfiguration env false expected w1 from rfl] at heq
      rw [heq] at h
      simp only [exWorld] at h
      have hlog2 : logOK w.log w2.log := logOK_trans hlog1 (logOK_of_chainFrame h)
      split
      · rename_i w3 heq2
        have h2 : chainFrame w2 (exWorld (if pErr ≠ none ∧
            canRetryAfterConfigurationReset pErr = true then
            applyHotspotConfigurationAfterReset env expected password w2
          else Except.ok (pErr, w2))) := by
          split
          · exact applyHotspotConfigurationAfterReset_chainFrame env expected password w2
          · exact chainFrame_rfl w2
        rw [heq2] at h2
        exact logOK_trans hlog2 (logOK_of_chainFrame h2)
      · rename_i persistentError w3 heq2
        have h2 : chainFrame w2 (exWorld (if pErr ≠ none ∧
            canRetryAfterConfigurationReset pErr = true then
            applyHotspotConfigurationAfterReset env expected password w2
          else Except.ok (pErr, w2))) := by
          split
          · exact applyHotspotConfigurationAfterReset_chainFrame env expected password w2
          · exact chainFrame_rfl w2
        rw [heq2] at h2
        simp only [exWorld] at h2
        have hlog3 : logOK w.log w3.log := logOK_trans hlog2 (logOK_of_chainFrame h2)
        split
        · exact hlog3
        · set rem := getRemainingTimeout safeTimeout startedAt w3.now with hrem
          set slice := getTimeoutSlice 15000 rem with hslice
          set w4 := logEvent (.pollStart (some 15000) rem slice) w3 with hw4
          have hlog4 : logOK w.log w4.log := by
            refine logOK_trans hlog3 (logOK_logEvent w3 ?_)
            simp only [eventOK, Option.getD, hslice]
            exact getTimeoutSlice_eq_min rem
          have hpoll := (waitUntilSsidEquals_frame env expected slice w4.now w4).2.1
          have hnext := connectStage3_logOK env expected password safeTimeout startedAt
            (waitUntilSsidEquals env expected slice w4.now w4).1
            (waitUntilSsidEquals env expected slice w4.now w4).2
          exact logOK_trans hlog4 (logOK_trans (logOK_of_eq hpoll) hnext)
  · exact connectStage3_logOK env expected password safeTimeout startedAt connected w

lemma connectApplyPhase_logOK (env : Env) (expected password : String)
    (safeTimeout startedAt : Nat) (w : World) :
    logOK w.log (connectApplyPhase env expected password safeTimeout startedAt
      w).2.log := by
  simp only [connectApplyPhase]
  split
  · rename_i w2 heq
    have h := applyHotspotConfigurationWithFallback_chainFrame env expected password w
    rw [heq] at h
    exact logOK_of_chainFrame h
  · rename_i err w2 heq
    have h := applyHotspotConfigurationWithFallback_chainFrame env expected password w
    rw [heq] at h
    simp only [exWorld] at h
    have hlog2 : logOK w.log w2.log := logOK_of_chainFrame h
    split
    · rename_i w3 heq2
      have h2 : chainFrame w2 (exWorld (if err ≠ none ∧
          canRetryAfterConfigurationReset err = true then
          applyHotspotConfigurationAfterReset env expected password w2
        else Except.ok (err, w2))) := by
        split
        · exact applyHotspotConfigurationAfterReset_chainFrame env expected password w2
        · exact chainFrame_rfl w2
      rw [heq2] at h2
      exact logOK_trans hlog2 (logOK_of_chainFrame h2)
    · rename_i initialError w3 heq2
      have h2 : chainFrame w2 (exWorld (if err ≠ none ∧
          canRetryAfterConfigurationReset err = true then
          applyHotspotConfigurationAfterReset env expected password w2
        else Except.ok (err, w2))) := by
        split
        · exact applyHotspotConfigurationAfterReset_chainFrame env expected password w2
        · exact chainFrame_rfl w2
      rw [heq2] at h2
      simp only [exWorld] at h2
      have hlog3 : logOK w.log w3.log := logOK_trans hlog2 (logOK_of_chainFrame h2)
      split
      · exact hlog3
      · set rem := getRemainingTimeout safeTimeout startedAt w3.now with hrem
        set slice := getTimeoutSlice 15000 rem with hslice
        set w4 := logEvent (.pollStart (some 15000) rem slice) w3 with hw4
        have hlog4 : logOK w.log w4.log := by
          refine logOK_trans hlog3 (logOK_logEvent w3 ?_)
          simp only [eventOK, Option.getD, hslice]
          exact getTimeoutSlice_eq_min rem
        have hpoll := (waitUntilSsidEquals_frame env expected slice w4.now w4).2.1
        have hnext := connectStage2_logOK env expected password safeTimeout startedAt
          (waitUntilSsidEquals env expected slice w4.now w4).1
          (waitUntilSsidEquals env expected slice w4.now w4).2
        exact logOK_trans hlog4 (logOK_trans (logOK_of_eq hpoll) hnext)

lemma connectToWifiNetwork_logOK (env : Env) (ssid password : String)
    (milliseconds : Int) (w : World) :
    logOK w.log (connectToWifiNetwork env ssid password milliseconds w).2.log := by
  simp only [connectToWifiNetwork]
  split
  · exact logOK_rfl w.log
  · rename_i expected heq
    split
    · exact logOK_rfl w.log
    · have hread := (getSSIDAsync_frame env w).2.1
      split
      · intro e he
        simp only at he
        rw [hread] at he
        exact Or.inl he
      · have hnext := connectApplyPhase_logOK env expected password
          (safeTimeoutMs milliseconds) w.now (getSSIDAsync env w).2
        exact logOK_trans (logOK_of_eq hread) hnext

lemma connectStage3_prevOnFalse (env : Env) (expected password : String)
    (safeTimeout startedAt : Nat) (connected : Bool) (w : World)
    (h : (connectStage3 env expected password safeTimeout startedAt
      connected w).1 = false) :
    (connectStage3 env expected password safeTimeout startedAt
      connected w).2.previousSsid = w.previousSsid := by
  rcases hs : connectStage3 env expected password safeTimeout startedAt connected w
    with ⟨res, wf⟩
  rw [hs] at h
  simp only at h
  subst h
  simp only [connectStage3] at hs
  revert hs
  split
  · rename_i hgate
    set w1 := logEvent (.stageStart 3 (getRemainingTimeout safeTimeout startedAt w.now)) w
      with hw1
    have hw1prev : w1.previousSsid = w.previousSsid := rfl
    split
    · rename_i w2 heq
      have hc := applyHotspotConfigurationAfterReset_chainFrame env expected password w1
      rw [heq] at hc
      intro hs
      have : wf = w2 := (congrArg Prod.snd hs).symm
      rw [this]
      exact hc.1.trans hw1prev
    · rename_i resetRetryError w2 heq
      have hc := applyHotspotConfigurationAfterReset_chainFrame env expected password w1
      rw [heq] at hc
      simp only [exWorld] at hc
      have hw2prev : w2.previousSsid = w.previousSsid := hc.1.trans hw1prev
      split
      · intro hs
        have : wf = w2 := (congrArg Prod.snd hs).symm
        rw [this]
        exact hw2prev
      · set rem := getRemainingTimeout safeTimeout startedAt w2.now with hrem
        set w3 := logEvent (.pollStart none rem rem) w2 with hw3
        have hw3prev : w3.previousSsid = w.previousSsid := hw2prev
        have hpoll := (waitUntilSsidEquals_frame env expected rem w3.now w3).1
        intro hs
        have hfin := connectFinish_false_world expected
          (waitUntilSsidEquals env expected rem w3.now w3).1
          (waitUntilSsidEquals env expected rem w3.now w3).2
          (by rw [hs])
        have : wf = (waitUntilSsidEquals env expected rem w3.now w3).2 := by
          rw [← hfin.1, hs]
        rw [this, hpoll]
        exact hw3prev
  · intro hs
    have hfin := connectFinish_false_world expected connected w (by rw [hs])
    have : wf = w := by rw [← hfin.1, hs]
    rw [this]

lemma connectStage2_prevOnFalse (env : Env) (expected password : String)
    (safeTimeout startedAt : Nat) (connected : Bool) (w : World)
    (h : (connectStage2 env expected password safeTimeout startedAt
      connected w).1 = false) :
    (connectStage2 env expected password safeTimeout startedAt
      connected w).2.previousSsid = w.previousSsid := by
  rcases hs : connectStage2 env expected password safeTimeout startedAt connected w
    with ⟨res, wf⟩
  rw [hs] at h
  simp only at h
  subst h
  simp only [connectStage2] at hs
  revert hs
  split
  · rename_i hgate
    set w1 := logEvent (.stageStart 2 (getRemainingTimeout safeTimeout startedAt w.now)) w
      with hw1
    have hw1prev : w1.previousSsid = w.previousSsid := rfl
    split
    · rename_i w2 heq
      have hc := applyHotspotConfiguration_chainFrame env false expected w1
      rw [show applyPersistentHotspotConfiguration env expected password w1 =
        applyHotspotConfiguration env false expected w1 from rfl] at heq
      rw [heq] at hc
      intro hs
      have : wf = w2 := (congrArg Prod.snd hs).symm
      rw [this]
      exact hc.1.trans hw1prev
    · rename_i pErr w2 heq
      have hc := applyHotspotConfiguration_chainFrame env false expected w1
      rw [show applyPersistentHotspotConfiguration env expected password w1 =
        applyHotspotConfiguration env false expected w1 from rfl] at heq
      rw [heq] at hc
      simp only [exWorld] at hc
      have hw2prev : w2.previousSsid = w.previousSsid := hc.1.trans hw1prev
      split
      · rename_i w3 heq2
        have hc2 : chainFrame w2 (exWorld (if pErr ≠ none ∧
            canRetryAfterConfigurationReset pErr = true then
            applyHotspotConfigurationAfterReset env expected password w2
          else Except.ok (pErr, w2))) := by
          split
          · exact applyHotspotConfigurationAfterReset_chainFrame env expected password w2
          · exact chainFrame_rfl w2
        rw [heq2] at hc2
        intro hs
        have : wf = w3 := (congrArg Prod.snd hs).symm
        rw [this]
        exact hc2.1.trans hw2prev
      · rename_i persistentError w3 heq2
        have hc2 : chainFrame w2 (exWorld (if pErr ≠ none ∧
            canRetryAfterConfigurationReset pErr = true then
            applyHotspotConfigurationAfterReset env expected password w2
          else Except.ok (pErr, w2))) := by
          split
          · exact applyHotspotConfigurationAfterReset_chainFrame env expected password w2
          · exact chainFrame_rfl w2
        rw [heq2] at hc2
        simp only [exWorld] at hc2
        have hw3prev : w3.previousSsid = w.previousSsid := hc2.1.trans hw2prev
        split
        · intro hs
          have : wf = w3 := (congrArg Prod.snd hs).symm
          rw [this]
          exact hw3prev
        · set rem := getRemainingTimeout safeTimeout startedAt w3.now with hrem
          set slice := getTimeoutSlice 15000 rem with hslice
          set w4 := logEvent (.pollStart (some 15000) rem slice) w3 with hw4
          have hw4prev : w4.previousSsid = w.previousSsid := hw3prev
          have hpoll := (waitUntilSsidEquals_frame env expected slice w4.now w4).1
          intro hs
          have hnext := connectStage3_prevOnFalse env expected password safeTimeout
            startedAt (waitUntilSsidEquals env expected slice w4.now w4).1
            (waitUntilSsidEquals env expected slice w4.now w4).2 (by rw [hs])
          have : wf = (connectStage3 env expected password safeTimeout startedAt
              (waitUntilSsidEquals env expected slice w4.now w4).1
              (waitUntilSsidEquals env expected slice w4.now w4).2).2 :=
            (congrArg Prod.snd hs).symm
          rw [this, hnext, hpoll]
          exact hw4prev
  · intro hs
    have hnext := connectStage3_prevOnFalse env expected password safeTimeout
      startedAt connected w (by rw [hs])
    have : wf = (connectStage3 env expected password safeTimeout startedAt
        connected w).2 := (congrArg Prod.snd hs).symm
    rw [this, hnext]

lemma connectApplyPhase_prevOnFalse (env : Env) (expected password : String)
    (safeTimeout startedAt : Nat) (w : World)
    (h : (connectApplyPhase env expected password safeTimeout startedAt w).1 = false) :
    (connectApplyPhase env expected password safeTimeout startedAt
      w).2.previousSsid = w.previousSsid := by
  rcases hs : connectApplyPhase env expected password safeTimeout startedAt w
    with ⟨res, wf⟩
  rw [hs] at h
  simp only at h
  subst h
  simp only [connectApplyPhase] at hs
  revert hs
  split
  · rename_i w2 heq
    have hc := applyHotspotConfigurationWithFallback_chainFrame env expected password w
    rw [heq] at hc
    intro hs
    have : wf = w2 := (congrArg Prod.snd hs).symm
    rw [this]
    exact hc.1
  · rename_i err w2 heq
    have hc := applyHotspotConfigurationWithFallback_chainFrame env expected password w
    rw [heq] at hc
    simp only [exWorld] at hc
    have hw2prev : w2.previousSsid = w.previousSsid := hc.1
    split
    · rename_i w3 heq2
      have hc2 : chainFrame w2 (exWorld (if err ≠ none ∧
          canRetryAfterConfigurationReset err = true then
          applyHotspotConfigurationAfterReset env expected password w2
        else Except.ok (err, w2))) := by
        split
        · exact applyHotspotConfigurationAfterReset_chainFrame env expected password w2
        · exact chainFrame_rfl w2
      rw [heq2] at hc2
      intro hs
      have : wf = w3 := (congrArg Prod.snd hs).symm
      rw [this]
      exact hc2.1.trans hw2prev
    · rename_i initialError w3 heq2
      have hc2 : chainFrame w2 (exWorld (if err ≠ none ∧
          canRetryAfterConfigurationReset err = true then
          applyHotspotConfigurationAfterReset env expected password w2
        else Except.ok (err, w2))) := by
        split
        · exact applyHotspotConfigurationAfterReset_chainFrame env expected password w2
        · exact chainFrame_rfl w2
      rw [heq2] at hc2
      simp only [exWorld] at hc2
      have hw3prev : w3.previousSsid = w.previousSsid := hc2.1.trans hw2prev
      split
      · intro hs
        have : wf = w3 := (congrArg Prod.snd hs).symm
        rw [this]
        exact hw3prev
      · set rem := getRemainingTimeout safeTimeout startedAt w3.now with hrem
        set slice := getTimeoutSlice 15000 rem with hslice
        set w4 := logEvent (.pollStart (some 15000) rem slice) w3 with hw4
        have hw4prev : w4.previousSsid = w.previousSsid := hw3prev
        have hpoll := (waitUntilSsidEquals_frame env expected slice w4.now w4).1
        intro hs
        have hnext := connectStage2_prevOnFalse env expected password safeTimeout
          startedAt (waitUntilSsidEquals env expected slice w4.now w4).1
          (waitUntilSsidEquals env expected slice w4.now w4).2 (by rw [hs])
        have : wf = (connectStage2 env expected password safeTimeout startedAt
            (waitUntilSsidEquals env expected slice w4.now w4).1
            (waitUntilSsidEquals env expected slice w4.now w4).2).2 :=
          (congrArg Prod.snd hs).symm
        rw [this, hnext, hpoll]
        exact hw4prev

/-- The settled value of a disconnect promise: `none` when it rejected. -/
def settledValue : Except World (Bool × World) → Option (Bool × World)
  | .ok r => some r
  | .error _ => none

/-- Oracle with no modern hotspot API, a captive readout that reports no
SSID, successful configuration calls, and instantaneous native calls. -/
def envNullReads : Env :=
  { captive := fun _ => some (.ok none)
    hotspot := fun _ => .unavailable
    applyResult := fun _ => none
    applyThrows := fun _ => false
    removeThrows := fun _ => false
    dur := fun _ => 0 }

/-- Oracle whose captive readout always reports the SSID `Cafe`. -/
def envReadsCafe : Env :=
  { envNullReads with captive := fun _ => some (.ok (some "Cafe")) }

/-- Oracle whose `removeConfigurationForSSID` calls throw synchronously. -/
def envRemoveThrows : Env :=
  { envNullReads with removeThrows := fun _ => true }

/-- A fresh manager instance: no previous join, empty cache, clock zero. -/
def w0 : World :=
  { previousSsid := none, cachedSsid := none, now := 0, tick := 0, log := [] }

/-- A fresh instance whose cache holds `Home`. -/
def wCachedHome : World := { w0 with cachedSsid := some "Home" }

/-- An instance that recorded a successful join to `Cafe`. -/
def wPrevCafe : World :=
  { w0 with previousSsid := some "Cafe", cachedSsid := some "Cafe" }

/-- An instance whose recorded join target is itself quote-wrapped — the
value `normalizeSsid` produces for the caller input `""a""`. -/
def wPrevQuoted : World := { w0 with previousSsid := some "\"a\"" }

lemma disconnectFinish_false_world (target : String) (disc : Bool) (w : World)
    (h : (disconnectFinish target disc w).1 = false) :
    (disconnectFinish target disc w).2 = w ∧ disc = false := by
  by_cases hc : disc = true ∧ w.previousSsid = some target
  · simp [disconnectFinish, hc] at h
  · rw [disconnectFinish, if_neg hc] at h ⊢
    exact ⟨rfl, h⟩

/-! ## Claim theorems -/

/-- C6, counterexample: the two-character input consisting of a bare pair of
double quotes survives trimming, matches the quote-stripping rule, and
normalizes to the empty string — not to `null` and not to a non-empty
string, contradicting the claim that no input yields the empty string. -/
theorem normalizeSsid_quote_pair_empty :
    normalizeSsid (RawSsid.str "\"\"") = some "" := by decide

/-- C6 (amended): the SSID normalizer returns either null or a string;
absent/null/undefined inputs map to null, inputs that trim to the empty
string or to the sentinel unknown marker map to null, and the empty string
can only be returned by quote-stripping an input whose trimmed form is
quote-wrapped of length ≥ 2 (e.g. a bare pair of double quotes); every
result not produced by quote-stripping is non-empty. -/
theorem normalizeSsid_range (raw : RawSsid) :
    (raw = RawSsid.noValue → normalizeSsid raw = none) ∧
    (∀ s, raw = RawSsid.str s → (jsTrim s = "" ∨ jsTrim s = "<unknown ssid>") →
      normalizeSsid raw = none) ∧
    (∀ t, normalizeSsid raw = some t → t = "" →
      ∃ s, raw = RawSsid.str s ∧ 2 ≤ (jsTrim s).length ∧
        (jsTrim s).data.head? = some '"' ∧ (jsTrim s).data.getLast? = some '"') := by
  rcases raw with _ | s
  · exact ⟨fun _ => rfl, by simp, by simp [normalizeSsid]⟩
  · refine ⟨by simp, ?_, ?_⟩
    · intro s' hs htrim
      cases hs
      simp only [normalizeSsid]
      rw [if_pos htrim]
    · intro t hsome hempty
      simp only [normalizeSsid] at hsome
      by_cases hnull : jsTrim s = "" ∨ jsTrim s = "<unknown ssid>"
      · rw [if_pos hnull] at hsome
        exact absurd hsome (by simp)
      · rw [if_neg hnull] at hsome
        by_cases hquote : 2 ≤ (jsTrim s).length ∧ (jsTrim s).data.head? = some '"' ∧
            (jsTrim s).data.getLast? = some '"'
        · exact ⟨s, rfl, hquote.1, hquote.2.1, hquote.2.2⟩
        · rw [if_neg hquote] at hsome
          have ht : t = jsTrim s := by
            injection hsome with h
            exact h.symm
          rw [ht] at hempty
          exact absurd (Or.inl hempty) hnull

/-- C6, witness. -/
theorem normalizeSsid_range_witness :
    normalizeSsid (RawSsid.str "   ") = none :=
  (normalizeSsid_range (RawSsid.str "   ")).2.1 "   " rfl (by decide)

/-- C7: the normalizer is the identity on already-canonical non-quoted
strings, strips a surrounding quote pair, and maps the empty string, the
absent value and the sentinel unknown marker to null. -/
theorem normalizeSsid_algebra :
    (∀ s : String, isCanonicalNonQuoted s = true → normalizeSsid (.str s) = some s) ∧
    normalizeSsid (RawSsid.str "\"abc\"") = some "abc" ∧
    normalizeSsid (RawSsid.str "") = none ∧
    normalizeSsid RawSsid.noValue = none ∧
    normalizeSsid (RawSsid.str "<unknown ssid>") = none := by
  refine ⟨?_, by decide, by decide, rfl, by decide⟩
  intro s h
  simp only [isCanonicalNonQuoted, Bool.and_eq_true, beq_iff_eq, bne_iff_ne,
    Bool.not_eq_true'] at h
  obtain ⟨⟨⟨h1, h2⟩, h3⟩, h4⟩ := h
  simp only [normalizeSsid, h1]
  rw [if_neg (by simp [h2, h3])]
  rw [if_neg ?_]
  · intro hcond
    obtain ⟨hl, hh, hg⟩ := hcond
    simp [hl, hh, hg] at h4

/-- C7, witness. -/
theorem normalizeSsid_algebra_witness :
    normalizeSsid (RawSsid.str "abc") = some "abc" :=
  normalizeSsid_algebra.1 "abc" (by decide)

/-- C8: the hotspot error classifier puts exactly codes 13, 9 and 8 in the
recoverable bucket, exactly code 12 in the retryable-without-join-once
bucket, and exactly code 8 in the retryable-after-reset bucket; code 8 is in
two buckets at once, and a missing error object (code −1) is in none. -/
theorem hotspot_error_classification :
    (∀ code : Int,
      (isRecoverableHotspotConfigurationError (some code) = true ↔
        (code = 13 ∨ code = 9 ∨ code = 8)) ∧
      (canRetryWithoutJoinOnce (some code) = true ↔ code = 12) ∧
      (canRetryAfterConfigurationReset (some code) = true ↔ code = 8)) ∧
    (isRecoverableHotspotConfigurationError (some 8) = true ∧
      canRetryAfterConfigurationReset (some 8) = true) ∧
    (isRecoverableHotspotConfigurationError none = false ∧
      canRetryWithoutJoinOnce none = false ∧
      canRetryAfterConfigurationReset none = false) := by
  refine ⟨?_, by decide, by decide⟩
  intro code
  refine ⟨?_, ?_, ?_⟩ <;>
    simp [isRecoverableHotspotConfigurationError, canRetryWithoutJoinOnce,
      canRetryAfterConfigurationReset, getHotspotErrorCode, HOTSPOT_ERROR_INTERNAL,
      HOTSPOT_ERROR_PENDING, HOTSPOT_ERROR_JOIN_ONCE_NOT_SUPPORTED,
      HOTSPOT_ERROR_ALREADY_ASSOCIATED] <;>
    tauto

/-- C8, witness. -/
theorem hotspot_error_classification_witness :
    isRecoverableHotspotConfigurationError (some 13) = true :=
  ((hotspot_error_classification.1 13).1).mpr (Or.inl rfl)

/-- C5: `waitUntil` resolves true as soon as an evaluation of the predicate
returns true; it resolves false only once an evaluation completed at or past
the effective timeout; a rejected evaluation before the deadline is treated
as a transient negative result (the loop continues with the log flag set)
and at most one rejection log entry is emitted per call; the effective
interval is at least 50 ms for every caller input and the effective timeout
is floored at 0. -/
theorem waitUntil_spec :
    (∀ (timeoutMs intervalMs : Int) (pre : List (Nat × PredOutcome)) (t : Nat)
        (rest : List (Nat × PredOutcome)),
      (∀ e ∈ pre, e.2 ≠ PredOutcome.ptrue ∧ e.1 < safeTimeoutMs timeoutMs) →
      (waitUntil timeoutMs intervalMs (pre ++ (t, PredOutcome.ptrue) :: rest)).1 =
        some true) ∧
    (∀ (timeoutMs intervalMs : Int) (trace : List (Nat × PredOutcome)),
      (waitUntil timeoutMs intervalMs trace).1 = some false →
        ∃ e ∈ trace, safeTimeoutMs timeoutMs ≤ e.1) ∧
    (∀ (timeoutMs intervalMs : Int) (t : Nat) (rest : List (Nat × PredOutcome)),
      t < safeTimeoutMs timeoutMs →
      (waitUntil timeoutMs intervalMs ((t, PredOutcome.preject) :: rest)).1 =
        (waitUntilLoop (safeTimeoutMs timeoutMs) true rest).1) ∧
    (∀ (timeoutMs intervalMs : Int) (trace : List (Nat × PredOutcome)),
      (waitUntil timeoutMs intervalMs trace).2 ≤ 1) ∧
    (∀ intervalMs : Int, 50 ≤ safeIntervalMs intervalMs) ∧
    (∀ timeoutMs : Int, timeoutMs ≤ 0 → safeTimeoutMs timeoutMs = 0) := by
  refine ⟨?_, ?_, ?_, ?_, ?_, ?_⟩
  · intro tm iv pre t rest hpre
    exact waitUntilLoop_true_of_prefix _ false pre t rest hpre
  · intro tm iv trace h
    exact waitUntilLoop_false_deadline _ false trace h
  · intro tm iv t rest hlt
    simp only [waitUntil, waitUntilLoop]
    rw [if_neg (Nat.not_le.2 hlt)]
  · intro tm iv trace
    exact waitUntilLoop_count_le_one _ trace
  · intro iv
    simp only [safeIntervalMs]
    exact le_max_left _ _
  · intro tm htm
    simp only [safeTimeoutMs]
    omega

/-- C5, witness. -/
theorem waitUntil_spec_witness :
    (waitUntil 100 200 [(0, PredOutcome.pfalse), (10, PredOutcome.ptrue)]).1 =
        some true ∧
      50 ≤ safeIntervalMs (-7) ∧ safeTimeoutMs (-3) = 0 := by
  refine ⟨?_, waitUntil_spec.2.2.2.2.1 (-7), waitUntil_spec.2.2.2.2.2 (-3) (by decide)⟩
  exact waitUntil_spec.1 100 200 [(0, PredOutcome.pfalse)] 10 [] (by decide)

/-- C1, evaluation at the failing input: with a recorded previous SSID and a
native `removeConfigurationForSSID` that throws synchronously, the promise
returned by `disconnectWifiNetwork` rejects (no settled value) instead of
resolving a boolean — the call at source line 654 is the one native
invocation in the file not wrapped in `try`/`catch`, although the same call
is guarded at source lines 203 and 275 and the spec requires that no
exception crosses the public boundary. -/
theorem disconnect_rejects_on_remove_throw :
    settledValue (disconnectWifiNetwork envRemoveThrows 5000 wPrevCafe) = none := by
  decide

/-- C2, counterexample: a `connectToWifiNetwork` call that resolves `false`
can still rewrite `CachedSsid`: starting from a cache holding `Home`, with a
readout that reports no SSID and a zero budget, connect fails yet leaves the
cache `null` — every `getSSIDAsync` performed during the attempt stores its
result in the cache. -/
theorem connect_false_rewrites_cachedSsid :
    (connectToWifiNetwork envNullReads "Cafe" "" 0 wCachedHome).1 = false ∧
    (connectToWifiNetwork envNullReads "Cafe" "" 0 wCachedHome).2.cachedSsid ≠
      wCachedHome.cachedSsid := by
  have h0 : normalizeSsid RawSsid.noValue = none := rfl
  have h1 : normalizeSsid (RawSsid.str "Cafe") = some "Cafe" := by decide
  have h2 : ("Cafe" : String) ≠ "" := by decide
  constructor <;>
    simp [connectToWifiNetwork, connectApplyPhase, connectStage2, connectStage3,
      connectFinish, applyHotspotConfigurationWithFallback,
      applyHotspotConfigurationAfterReset, applyPersistentHotspotConfiguration,
      applyHotspotConfiguration, removeConfigurationForSSID, waitUntilSsidEquals,
      getSSIDAsync, fetchCurrentSsid, getSsidFromCaptiveNetworkSafe,
      getSsidFromCaptiveNetwork, useTick, advance, logEvent, exWorld, normVal,
      truthy, getRemainingTimeout, getTimeoutSlice, safeTimeoutMs,
      isRecoverableHotspotConfigurationError, canRetryAfterConfigurationReset,
      canRetryWithoutJoinOnce, getHotspotErrorCode, envNullReads, wCachedHome, w0,
      POLL_INTERVAL_MS, SSID_FETCH_TIMEOUT_MS, HOTSPOT_RETRY_DELAY_MS,
      HOTSPOT_ERROR_INTERNAL, HOTSPOT_ERROR_PENDING,
      HOTSPOT_ERROR_JOIN_ONCE_NOT_SUPPORTED, HOTSPOT_ERROR_ALREADY_ASSOCIATED,
      h0, h1, h2]

/-- C2 (amended): a `connectToWifiNetwork` call that resolves `false` leaves
`PreviousSsid` exactly as it was, and a `disconnectWifiNetwork` call that
resolves `false` likewise leaves `PreviousSsid` unchanged.  `CachedSsid` is
*not* preserved on failure: every SSID readout performed during the attempt
rewrites it (see the counterexample). -/
theorem failed_ops_preserve_previousSsid :
    (∀ (env : Env) (ssid password : String) (ms : Int) (w : World),
      (connectToWifiNetwork env ssid password ms w).1 = false →
      (connectToWifiNetwork env ssid password ms w).2.previousSsid =
        w.previousSsid) ∧
    (∀ (env : Env) (tmo : Int) (w : World) (res : Bool) (w' : World),
      disconnectWifiNetwork env tmo w = Except.ok (res, w') → res = false →
      w'.previousSsid = w.previousSsid) := by
  constructor
  · intro env ssid password ms w h
    revert h
    simp only [connectToWifiNetwork]
    split
    · intro _
      rfl
    · rename_i expected heq
      split
      · intro _
        rfl
      · split
        · intro h
          simp at h
        · intro h
          have hprev := connectApplyPhase_prevOnFalse env expected password
            (safeTimeoutMs ms) w.now (getSSIDAsync env w).2 h
          rw [hprev, (getSSIDAsync_frame env w).1]
  · intro env tmo w res w' hok hres
    subst hres
    revert hok
    simp only [disconnectWifiNetwork]
    split
    · intro hok
      injection hok with hpair
      injection hpair with hfst hsnd
      simp at hfst
    · rename_i target htarget
      split
      · intro hok
        injection hok with hpair
        injection hpair with hfst hsnd
        simp at hfst
      · split
        · intro hok
          cases hok
        · rename_i u w1 hremove
          intro hok
          injection hok with hpair
          have hw' : w' = (disconnectFinish target
              (waitUntilSsidDiffers env target (safeTimeoutMs tmo) w1.now w1).1
              (waitUntilSsidDiffers env target (safeTimeoutMs tmo) w1.now w1).2).2 :=
            (congrArg Prod.snd hpair).symm
          have hfalse : (disconnectFinish target
              (waitUntilSsidDiffers env target (safeTimeoutMs tmo) w1.now w1).1
              (waitUntilSsidDiffers env target (safeTimeoutMs tmo) w1.now w1).2).1 =
              false := congrArg Prod.fst hpair
          have hfin := disconnectFinish_false_world target _ _ hfalse
          rw [hw', hfin.1]
          have hpoll := (waitUntilSsidDiffers_frame env target (safeTimeoutMs tmo)
            w1.now w1).1
          rw [hpoll]
          have hrm := (removeConfigurationForSSID_chainFrame env target w).1
          have : w1 = (removeConfigurationForSSID env target w).2 :=
            congrArg Prod.snd hremove.symm
          rw [this]
          exact hrm.1

/-- C2, witness for the amended claim. -/
theorem failed_ops_preserve_previousSsid_witness :
    (connectToWifiNetwork envNullReads "Cafe" "" 0 wCachedHome).2.previousSsid =
      wCachedHome.previousSsid := by
  refine failed_ops_preserve_previousSsid.1 envNullReads "Cafe" "" 0 wCachedHome ?_
  have h0 : normalizeSsid RawSsid.noValue = none := rfl
  have h1 : normalizeSsid (RawSsid.str "Cafe") = some "Cafe" := by decide
  have h2 : ("Cafe" : String) ≠ "" := by decide
  simp [connectToWifiNetwork, connectApplyPhase, connectStage2, connectStage3,
    connectFinish, applyHotspotConfigurationWithFallback,
    applyHotspotConfigurationAfterReset, applyPersistentHotspotConfiguration,
    applyHotspotConfiguration, removeConfigurationForSSID, waitUntilSsidEquals,
    getSSIDAsync, fetchCurrentSsid, getSsidFromCaptiveNetworkSafe,
    getSsidFromCaptiveNetwork, useTick, advance, logEvent, exWorld, normVal,
    truthy, getRemainingTimeout, getTimeoutSlice, safeTimeoutMs,
    isRecoverableHotspotConfigurationError, canRetryAfterConfigurationReset,
    canRetryWithoutJoinOnce, getHotspotErrorCode, envNullReads, wCachedHome, w0,
    POLL_INTERVAL_MS, SSID_FETCH_TIMEOUT_MS, HOTSPOT_RETRY_DELAY_MS,
    HOTSPOT_ERROR_INTERNAL, HOTSPOT_ERROR_PENDING,
    HOTSPOT_ERROR_JOIN_ONCE_NOT_SUPPORTED, HOTSPOT_ERROR_ALREADY_ASSOCIATED,
    h0, h1, h2]

/-- C3: within one `connectToWifiNetwork` invocation, every recorded polling
stage's slice equals `min(preferredSliceMs, remainingMs)` of the budget at
its start — the capped stages record a preferred slice of 15000, the final
stage records none and so receives the full remainder — and every
remediation stage (`stageStart`) is entered only with a positive remaining
budget (once the budget is zero, no further stage starts and the operation
runs to its `false` resolution). -/
theorem connect_time_budget_discipline (env : Env) (ssid password : String)
    (ms : Int) (w : World) (e : Event)
    (he : e ∈ (connectToWifiNetwork env ssid password ms w).2.log) :
    e ∈ w.log ∨
      ((∀ preferred remaining slice, e = Event.pollStart preferred remaining slice →
          slice = min (preferred.getD remaining) remaining) ∧
        (∀ n remaining, e = Event.stageStart n remaining → 0 < remaining)) := by
  rcases connectToWifiNetwork_logOK env ssid password ms w e he with h | h
  · exact Or.inl h
  · right
    constructor
    · intro preferred remaining slice hE
      subst hE
      exact h
    · intro n remaining hE
      subst hE
      exact h

/-- C3, witness: the zero-budget run records its first poll with slice
`min 15000 0 = 0` and starts no remediation stage. -/
theorem connect_time_budget_discipline_witness :
    Event.pollStart (some 15000) 0 0 ∈
        (connectToWifiNetwork envNullReads "Cafe" "" 0 w0).2.log ∧
      ((0 : Nat) = min ((some 15000 : Option Nat).getD 0) 0) := by
  have h0 : normalizeSsid RawSsid.noValue = none := rfl
  have h1 : normalizeSsid (RawSsid.str "Cafe") = some "Cafe" := by decide
  have h2 : ("Cafe" : String) ≠ "" := by decide
  have hmem : Event.pollStart (some 15000) 0 0 ∈
      (connectToWifiNetwork envNullReads "Cafe" "" 0 w0).2.log := by
    simp [connectToWifiNetwork, connectApplyPhase, connectStage2, connectStage3,
      connectFinish, applyHotspotConfigurationWithFallback,
      applyHotspotConfigurationAfterReset, applyPersistentHotspotConfiguration,
      applyHotspotConfiguration, removeConfigurationForSSID, waitUntilSsidEquals,
      getSSIDAsync, fetchCurrentSsid, getSsidFromCaptiveNetworkSafe,
      getSsidFromCaptiveNetwork, useTick, advance, logEvent, exWorld, normVal,
      truthy, getRemainingTimeout, getTimeoutSlice, safeTimeoutMs,
      isRecoverableHotspotConfigurationError, canRetryAfterConfigurationReset,
      canRetryWithoutJoinOnce, getHotspotErrorCode, envNullReads, w0,
      POLL_INTERVAL_MS, SSID_FETCH_TIMEOUT_MS, HOTSPOT_RETRY_DELAY_MS,
      HOTSPOT_ERROR_INTERNAL, HOTSPOT_ERROR_PENDING,
      HOTSPOT_ERROR_JOIN_ONCE_NOT_SUPPORTED, HOTSPOT_ERROR_ALREADY_ASSOCIATED,
      h0, h1, h2]
  refine ⟨hmem, ?_⟩
  have := connect_time_budget_discipline envNullReads "Cafe" "" 0 w0
    (Event.pollStart (some 15000) 0 0) hmem
  rcases this with h | h
  · simp [w0] at h
  · exact h.1 (some 15000) 0 0 rfl

/-- C4: when the confirmed SSID resolved at the start of
`connectToWifiNetwork` equals the normalized target, the call resolves
`true`, records the target in `PreviousSsid` and `CachedSsid`, and issues no
native configuration call (the instrumentation log is unchanged). -/
theorem connect_idempotent_shortcut (env : Env) (ssid password : String)
    (ms : Int) (w : World) (expected : String)
    (hn : normalizeSsid (RawSsid.str ssid) = some expected) (hne : expected ≠ "")
    (hr : normVal (getSSIDAsync env w).1 = some expected) :
    (connectToWifiNetwork env ssid password ms w).1 = true ∧
    (connectToWifiNetwork env ssid password ms w).2.previousSsid = some expected ∧
    (connectToWifiNetwork env ssid password ms w).2.cachedSsid = some expected ∧
    (connectToWifiNetwork env ssid password ms w).2.log = w.log := by
  simp only [connectToWifiNetwork, hn]
  rw [if_neg hne, if_pos hr]
  exact ⟨rfl, rfl, rfl, (getSSIDAsync_frame env w).2.1⟩

/-- C4, witness. -/
theorem connect_idempotent_shortcut_witness :
    (connectToWifiNetwork envReadsCafe "Cafe" "pw" 5000 w0).1 = true ∧
    (connectToWifiNetwork envReadsCafe "Cafe" "pw" 5000 w0).2.log = w0.log :=
  ⟨(connect_idempotent_shortcut envReadsCafe "Cafe" "pw" 5000 w0 "Cafe" (by decide)
      (by decide) (by decide)).1,
    (connect_idempotent_shortcut envReadsCafe "Cafe" "pw" 5000 w0 "Cafe" (by decide)
      (by decide) (by decide)).2.2.2⟩

/-- C9, counterexample: with the stored `previousSsid = "\"a\""` (exactly the
value `normalizeSsid` produces for the caller input `""a""`, so reachable
through a successful connect), disconnect issues the native removal for the
re-normalized name `a` — not for the stored `PreviousSsid` — resolves
`true`, and yet clears nothing, because the stored value no longer equals
its own normalization. -/
theorem disconnect_quoted_previous_not_cleared :
    (settledValue (disconnectWifiNetwork envNullReads 0 wPrevQuoted)).map
        Prod.fst = some true ∧
    (settledValue (disconnectWifiNetwork envNullReads 0 wPrevQuoted)).map
        (fun r => r.2.previousSsid) = some (some "\"a\"") ∧
    (settledValue (disconnectWifiNetwork envNullReads 0 wPrevQuoted)).map
        (fun r => r.2.log) = some [Event.removeCall "a"] := by
  have hq : normalizeSsid (RawSsid.str "\"a\"") = some "a" := by decide
  have h0 : normalizeSsid RawSsid.noValue = none := rfl
  have hne : ("\"a\"" : String) ≠ "a" := by decide
  have hane : ("a" : String) ≠ "" := by decide
  refine ⟨?_, ?_, ?_⟩ <;>
    simp [disconnectWifiNetwork, disconnectFinish, settledValue,
      removeConfigurationForSSID, waitUntilSsidDiffers, getSSIDAsync,
      fetchCurrentSsid, getSsidFromCaptiveNetworkSafe, getSsidFromCaptiveNetwork,
      useTick, advance, logEvent, normVal, truthy, safeTimeoutMs, envNullReads,
      wPrevQuoted, w0, POLL_INTERVAL_MS, SSID_FETCH_TIMEOUT_MS, hq, h0, hne, hane]

/-- C9 (amended): `disconnectWifiNetwork` resolves `true` with no native
removal when the stored `previousSsid` normalizes to a falsy value (in
particular when none is recorded); otherwise it removes the native
configuration for the *normalized* `previousSsid`, polls until the read SSID
differs from that normalized name within the caller's timeout, settles, and
on a successful poll clears both `PreviousSsid` and `CachedSsid` — provided
the stored `previousSsid` equals its own normalization.  A stored value that
renormalizes differently (the normalizer itself can produce such values,
e.g. quote-wrapped ones like the counterexample's, or whitespace-padded
ones) has its removal and polling target the normalized name instead, and is
left in place on a `true` resolution. -/
theorem disconnect_behavior (env : Env) (tmo : Int) (w : World) :
    (truthy (normVal w.previousSsid) = false →
      disconnectWifiNetwork env tmo w = Except.ok (true, w)) ∧
    (∀ p, w.previousSsid = some p → normalizeSsid (RawSsid.str p) = some p →
      p ≠ "" → env.removeThrows w.tick = false →
      (∀ res w', disconnectWifiNetwork env tmo w = Except.ok (res, w') →
        Event.removeCall p ∈ w'.log ∧
        (res = true → w'.previousSsid = none ∧ w'.cachedSsid = none)) ∧
      (settledValue (disconnectWifiNetwork env tmo w)).isSome = true) := by
  constructor
  · intro hfalsy
    rcases hnv : normVal w.previousSsid with _ | t
    · simp [disconnectWifiNetwork, hnv]
    · rw [hnv] at hfalsy
      simp only [truthy, bne_eq_false_iff_eq] at hfalsy
      simp [disconnectWifiNetwork, hnv, hfalsy]
  · intro p hp hnorm hpne hrm
    have hnv : normVal w.previousSsid = some p := by
      rw [hp]
      exact hnorm
    have hfst : (removeConfigurationForSSID env p w).1 = NativeOutcome.ok () := by
      simp [removeConfigurationForSSID, useTick, logEvent, hrm]
    have hpair : removeConfigurationForSSID env p w =
        (NativeOutcome.ok (), (removeConfigurationForSSID env p w).2) :=
      Prod.ext hfst rfl
    have hrun : disconnectWifiNetwork env tmo w =
        Except.ok (disconnectFinish p
          (waitUntilSsidDiffers env p (safeTimeoutMs tmo)
            (removeConfigurationForSSID env p w).2.now
            (removeConfigurationForSSID env p w).2).1
          (waitUntilSsidDiffers env p (safeTimeoutMs tmo)
            (removeConfigurationForSSID env p w).2.now
            (removeConfigurationForSSID env p w).2).2) := by
      simp only [disconnectWifiNetwork, hnv]
      rw [if_neg hpne, hpair]
    set W1 := (removeConfigurationForSSID env p w).2 with hW1
    set P := waitUntilSsidDiffers env p (safeTimeoutMs tmo) W1.now W1 with hP
    have hprevP : P.2.previousSsid = some p := by
      rw [hP, (waitUntilSsidDiffers_frame env p (safeTimeoutMs tmo) W1.now W1).1,
        hW1, (removeConfigurationForSSID_chainFrame env p w).1.1, hp]
    refine ⟨?_, ?_⟩
    · intro res w' hok
      rw [hrun] at hok
      injection hok with hpair2
      have hw' : w' = (disconnectFinish p P.1 P.2).2 :=
        (congrArg Prod.snd hpair2).symm
      have hres : res = (disconnectFinish p P.1 P.2).1 :=
        (congrArg Prod.fst hpair2).symm
      constructor
      · rw [hw']
        have hfinlog : (disconnectFinish p P.1 P.2).2.log = P.2.log := by
          rw [disconnectFinish]
          split <;> rfl
        rw [hfinlog, hP,
          (waitUntilSsidDiffers_frame env p (safeTimeoutMs tmo) W1.now W1).2.1, hW1]
        exact (removeConfigurationForSSID_chainFrame env p w).2
      · intro hrtrue
        by_cases hP1 : P.1 = true
        · have hclear : disconnectFinish p P.1 P.2 =
              (true, { P.2 with previousSsid := none, cachedSsid := none }) := by
            rw [disconnectFinish, if_pos ⟨hP1, hprevP⟩]
          rw [hw', hclear]
          exact ⟨rfl, rfl⟩
        · exfalso
          rw [hres, disconnectFinish, if_neg (fun hc => hP1 hc.1)] at hrtrue
          exact hP1 hrtrue
    · rw [hrun]
      rfl

/-- C9, witness for the amended claim. -/
theorem disconnect_behavior_witness :
    disconnectWifiNetwork envNullReads 300 w0 = Except.ok (true, w0) ∧
    (settledValue (disconnectWifiNetwork envNullReads 0 wPrevCafe)).isSome =
      true := by
  refine ⟨(disconnect_behavior envNullReads 300 w0).1 (by decide), ?_⟩
  exact ((disconnect_behavior envNullReads 0 wPrevCafe).2 "Cafe" rfl (by decide)
    (by decide) rfl).2

/-- C10: the disconnect completion continuation clears the stored state only
when `PreviousSsid`, as observed when the polling promise settles, still
equals the SSID whose removal was originally requested; when polling
succeeded but `PreviousSsid` has meanwhile been changed (by another
operation interleaved during the wait), the call still resolves `true` and
leaves the observed `PreviousSsid` and `CachedSsid` in place. -/
theorem disconnect_guarded_clear (target : String) (disc : Bool) (w : World) :
    (disc = true → w.previousSsid = some target →
      disconnectFinish target disc w =
        (true, { w with previousSsid := none, cachedSsid := none })) ∧
    (disc = true → w.previousSsid ≠ some target →
      disconnectFinish target disc w = (true, w)) ∧
    ((disconnectFinish target disc w).2 ≠ w →
      disc = true ∧ w.previousSsid = some target) := by
  refine ⟨?_, ?_, ?_⟩
  · intro hd hp
    rw [disconnectFinish, if_pos ⟨hd, hp⟩]
  · intro hd hp
    rw [disconnectFinish, if_neg (fun hc => hp hc.2), hd]
  · intro hne
    by_cases hc : disc = true ∧ w.previousSsid = some target
    · exact hc
    · exfalso
      rw [disconnectFinish, if_neg hc] at hne
      exact hne rfl

/-- C10, witness. -/
theorem disconnect_guarded_clear_witness :
    disconnectFinish "Cafe" true wPrevCafe =
        (true, { wPrevCafe with previousSsid := none, cachedSsid := none }) ∧
      disconnectFinish "Other" true wPrevCafe = (true, wPrevCafe) :=
  ⟨(disconnect_guarded_clear "Cafe" true wPrevCafe).1 rfl (by decide),
    (disconnect_guarded_clear "Other" true wPrevCafe).2.1 rfl (by decide)⟩

end ConnectivityManager
